import Mathlib

set_option autoImplicit false

/-
Verification of the libvlcpp ownership and lifetime layer
(src/vlcpp/Media.hpp, src/vlcpp/Instance.hpp, src/vlcpp/MediaDiscoverer.hpp).

Native pointers are modeled as natural numbers with 0 standing for the null
pointer. Native library functions are parameters of the embedded operations,
since the external library is outside this layer. Operations that make native
retain or release calls return, next to their result, the number of such calls
made, so that ownership claims can be stated as equations on those counts.
The base class Internal (file Internal.hpp) and the helper wrapCStr (file
common.hpp) are not under src/, so they are modeled from the spec, as marked
in their doc comments.
-/

/-- A native object pointer, modeled as a natural number; 0 is the null pointer. -/
abbrev NativePtr := Nat

/-- Modelled from the spec: the shared-ownership handle base class Internal,
whose file Internal.hpp is not under src/. A handle stores at most one native
pointer under shared ownership (spec section 4.1). -/
structure Internal where
  ptr : NativePtr

/-- Modelled from the spec: isValid() is true iff the stored native pointer is
non-null (spec section 4.1). -/
def Internal.isValid (h : Internal) : Bool :=
  h.ptr != 0

/-- Media::FromType (Media.hpp lines 44 to 64): selector for the three
creation paths of a Media. -/
inductive FromType
  | FromPath
  | FromLocation
  | AsNode

/-- The message of the std::runtime_error thrown by the Media constructor
(Media.hpp line 91). -/
def mediaNewErrorText : String :=
  "Failed to construct a media"

/-- Media::Media(Instance, mrl, FromType) (Media.hpp lines 72 to 93): dispatch
on the FromType to one of the three native create calls; a null result raises
std::runtime_error, modeled as Except.error, otherwise the fresh reference is
adopted without a retain. The three native create functions are parameters. -/
def mediaNew (newLocation newPath newAsNode : String → NativePtr)
    (mrl : String) (type : FromType) : Except String Internal :=
  let ptr : NativePtr :=
    match type with
    | FromType.FromLocation => newLocation mrl
    | FromType.FromPath => newPath mrl
    | FromType.AsNode => newAsNode mrl
  if ptr = 0 then Except.error mediaNewErrorText
  else Except.ok (Internal.mk ptr)

/-- Media::Media(Instance, int fd) (Media.hpp lines 115 to 119): passes the
libvlc_media_new_fd result straight to the Internal base, null included; there
is no check and no failure path, which the total return type reflects. -/
def mediaNewFd (new_fd : Int → NativePtr) (fd : Int) : Internal :=
  Internal.mk (new_fd fd)

/-- Instance::Instance(int argc, argv) (Instance.hpp lines 62 to 65): passes
the libvlc_new result straight to the Internal base, null included; there is
no check and no failure path, which the total return type reflects. -/
def instanceNew (libvlc_new : Int → List String → NativePtr)
    (argc : Int) (argv : List String) : Internal :=
  Internal.mk (libvlc_new argc argv)

/-- Media::retain() (Media.hpp lines 440 to 444): calls libvlc_media_retain
iff the handle is valid; the result counts the native retain calls made. -/
def mediaRetainCalls (h : Internal) : Nat :=
  if h.isValid then 1 else 0

/-- Media::Media(InternalPtr ptr, bool incrementRefCount) (Media.hpp lines 135
to 140): stores the pointer, then calls retain() iff the increment was
requested; the second component counts the native retain calls made. -/
def mediaFromPtr (ptr : NativePtr) (incrementRefCount : Bool) : Internal × Nat :=
  let h := Internal.mk ptr
  (h, if incrementRefCount then mediaRetainCalls h else 0)

/-- Media::duplicate() (Media.hpp lines 220 to 224): wraps the
libvlc_media_duplicate result through Media(ptr, false), adopting the fresh
reference without a retain; std::make_shared always yields a non-null shared
pointer, which the total return type reflects. The second component counts the
native retain calls made. -/
def mediaDuplicate (native_duplicate : NativePtr → NativePtr) (m : Internal) :
    Internal × Nat :=
  mediaFromPtr (native_duplicate m.ptr) false

/-- Media::operator== (Media.hpp lines 154 to 157): m_obj == another.m_obj,
which is shared_ptr equality, i.e. equality of the stored native pointers. -/
def mediaBeq (a b : Internal) : Bool :=
  a.ptr == b.ptr

/-- Instance::operator== (Instance.hpp lines 79 to 82): the same stored
native pointer comparison for Instance handles. -/
def instanceBeq (a b : Internal) : Bool :=
  a.ptr == b.ptr

/-- A wrapped event manager: the identity of the shared_ptr instance created
by std::make_shared, plus the native event-manager pointer that it wraps as a
back-reference (no retain, no independent release). -/
structure EventManager where
  id : Nat
  obj : NativePtr

/-- The state of a wrapper that carries a lazily cached event manager: the
native pointer of the parent plus the m_eventManager shared_ptr member, none
while that member is still null. -/
structure CacheState where
  ptr : NativePtr
  m_eventManager : Option EventManager

/-- Media::eventManager() (Media.hpp lines 312 to 320): if m_eventManager is
null, call libvlc_media_event_manager on the parent pointer and store a
freshly constructed wrapper (make_shared identity freshId); then return the
stored instance. -/
def mediaEventManager (accessor : NativePtr → NativePtr) (freshId : Nat)
    (s : CacheState) : EventManager × CacheState :=
  match s.m_eventManager with
  | none =>
    let em := EventManager.mk freshId (accessor s.ptr)
    (em, CacheState.mk s.ptr (some em))
  | some em => (em, s)

/-- MediaDiscoverer::eventManager() (MediaDiscoverer.hpp lines 105 to 113) as
written: the guard is `if ( m_eventManager )`, taken when the cache is already
non-null, in which case a fresh wrapper replaces the cache; the final
`return *m_eventManager` dereferences the cache, which is undefined behavior
in the C++ when the cache is still null, modeled as none. -/
def mediaDiscovererEventManager (accessor : NativePtr → NativePtr)
    (freshId : Nat) (s : CacheState) : Option (EventManager × CacheState) :=
  let s2 :=
    match s.m_eventManager with
    | some _ => CacheState.mk s.ptr (some (EventManager.mk freshId (accessor s.ptr)))
    | none => s
  match s2.m_eventManager with
  | some em => some (em, s2)
  | none => none

/-- Modelled from the spec: the ownership group of a handle (spec section 3),
implemented by the shared_ptr member of Internal (file Internal.hpp, not under
src/). Copies of a wrapper are interchangeable, so a group is fully described
by the shared native pointer and the number of members currently alive; a
destruction order is then a sequence of single destructions. -/
structure OwnershipGroup where
  ptr : NativePtr
  members : Nat

/-- Validity of the shared handle of a group: the stored pointer is non-null. -/
def OwnershipGroup.isValid (g : OwnershipGroup) : Bool :=
  g.ptr != 0

/-- Modelled from the spec: copy() joins the ownership group and never invokes
the native library (spec section 4.1); the second component counts the native
calls made by the copy. -/
def OwnershipGroup.copy (g : OwnershipGroup) : OwnershipGroup × Nat :=
  (OwnershipGroup.mk g.ptr (g.members + 1), 0)

/-- Modelled from the spec: destroying one member leaves the ownership group
and invokes the release function iff this was the last member holding a valid
handle (spec sections 3 and 4.1); the second component counts the native
release calls made. -/
def OwnershipGroup.destroyOne (g : OwnershipGroup) : OwnershipGroup × Nat :=
  (OwnershipGroup.mk g.ptr (g.members - 1),
   if g.members = 1 ∧ g.ptr ≠ 0 then 1 else 0)

/-- Total native release calls made when n members of the group are destroyed
one after the other. In the count model the members are interchangeable, so
every destruction order of n members is this sequence. -/
def destroyReleases (g : OwnershipGroup) : Nat → Nat
  | 0 => 0
  | n + 1 => (g.destroyOne).2 + destroyReleases (g.destroyOne).1 n

/-- The while loop of Instance::audioOutputList (Instance.hpp lines 274 to
279): walk the null-terminated chain from the head, appending one wrapped
element per node; the chain is modeled as the list of its nodes, the empty
list being the null head. -/
def walkChain {α β : Type} (wrap : α → β) : List α → List β → List β
  | [], acc => acc
  | x :: xs, acc => walkChain wrap xs (acc ++ [wrap x])

/-- Instance::audioOutputList (Instance.hpp lines 268 to 282): a null native
list returns the empty vector with no release call; otherwise the chain is
walked once and then libvlc_audio_output_list_release is called once on the
container. The second component counts the list-release calls made. -/
def audioOutputList {α β : Type} (wrap : α → β) (result : List α) :
    List β × Nat :=
  match result with
  | [] => ([], 0)
  | x :: xs => (walkChain wrap (x :: xs) [], 1)

/-- The for loop of Media::tracks (Media.hpp lines 427 to 428): starting at
index i with r indices left, append the wrapped element at each index. -/
def tracksLoop {α β : Type} (wrap : α → β) (arr : Nat → α) :
    Nat → Nat → List β → List β
  | _, 0, acc => acc
  | i, r + 1, acc => tracksLoop wrap arr (i + 1) r (acc ++ [wrap (arr i)])

/-- Media::tracks (Media.hpp lines 418 to 431): libvlc_media_tracks_get yields
the element count and the native array, modeled as an indexing function; a
zero count returns the empty vector early, before any release; otherwise the
loop wraps elements 0 to nbTracks - 1 in order and then
libvlc_media_tracks_release is called once on the container. The second
component counts the array-release calls made. -/
def mediaTracks {α β : Type} (wrap : α → β) (arr : Nat → α) (nbTracks : Nat) :
    List β × Nat :=
  if nbTracks = 0 then ([], 0)
  else (tracksLoop wrap arr 0 nbTracks [], 1)

/-- Modelled from the spec: wrapCStr (file common.hpp, not under src/) wraps a
native C string in an owning smart pointer without altering it; a null C
string gives a null smart pointer. Native C strings are modeled as
Option String, none standing for null. -/
def wrapCStr (s : Option String) : Option String :=
  s

/-- Media::mrl() (Media.hpp lines 209 to 215): wrap the native string; a null
result returns the empty string, otherwise the wrapped text. The argument is
the return value of libvlc_media_get_mrl. -/
def mediaMrl (native_get_mrl : Option String) : String :=
  match wrapCStr native_get_mrl with
  | none => ""
  | some s => s

/-- Media::meta(e_meta) (Media.hpp lines 246 to 252): wrap the native string;
a null result returns the empty string, otherwise the wrapped text. The
argument is the return value of libvlc_media_get_meta at the chosen key. -/
def mediaMeta (native_get_meta : Option String) : String :=
  match wrapCStr native_get_meta with
  | none => ""
  | some s => s

/-- MediaDiscoverer::localizedName() (MediaDiscoverer.hpp lines 92 to 98):
wrap the native string; a null result returns the empty string, otherwise the
wrapped text. The argument is the return value of
libvlc_media_discoverer_localized_name. -/
def discovererLocalizedName (native_localized_name : Option String) : String :=
  match wrapCStr native_localized_name with
  | none => ""
  | some s => s

/- ======================= helper lemmas ======================= -/

theorem walkChain_eq {α β : Type} (wrap : α → β) (l : List α) :
    ∀ acc : List β, walkChain wrap l acc = acc ++ l.map wrap := by
  induction l with
  | nil => intro acc; exact (List.append_nil acc).symm
  | cons x xs ih =>
    intro acc
    exact (ih (acc ++ [wrap x])).trans (List.append_assoc acc [wrap x] (xs.map wrap))

theorem tracksLoop_eq {α β : Type} (wrap : α → β) (arr : Nat → α) :
    ∀ (r i : Nat) (acc : List β),
      tracksLoop wrap arr i r acc
        = acc ++ (List.range r).map (fun k => wrap (arr (i + k))) := by
  intro r
  induction r with
  | zero => intro i acc; exact (List.append_nil acc).symm
  | succ n ih =>
    intro i acc
    rw [tracksLoop, ih, List.range_succ_eq_map, List.map_cons, List.map_map]
    have hs : ((fun k => wrap (arr (i + k))) ∘ Nat.succ)
        = (fun k => wrap (arr (i + 1 + k))) := by
      funext k
      show wrap (arr (i + (k + 1))) = wrap (arr (i + 1 + k))
      rw [(Nat.add_assoc i k 1).symm, Nat.add_right_comm i k 1]
    rw [hs, List.append_assoc]
    rfl

theorem destroyReleases_zero :
    ∀ (n : Nat) (g : OwnershipGroup), g.ptr = 0 → destroyReleases g n = 0 := by
  intro n
  induction n with
  | zero => intro g _; rfl
  | succ k ih =>
    intro g hp
    rw [destroyReleases, ih (g.destroyOne).1 hp]
    show (if g.members = 1 ∧ g.ptr ≠ 0 then 1 else 0) + 0 = 0
    rw [if_neg (fun h => h.2 hp)]

theorem destroyReleases_one :
    ∀ (n : Nat) (g : OwnershipGroup), g.members = n → g.ptr ≠ 0 → 1 ≤ n →
      destroyReleases g n = 1 := by
  intro n
  induction n with
  | zero => intro g _ _ hn; exact absurd hn (Nat.not_succ_le_zero 0)
  | succ k ih =>
    intro g hm hp _
    rw [destroyReleases]
    cases k with
    | zero =>
      show (if g.members = 1 ∧ g.ptr ≠ 0 then 1 else 0) + destroyReleases _ 0 = 1
      rw [if_pos ⟨hm.trans (Nat.zero_add 1), hp⟩]
      rfl
    | succ m =>
      have h1 : (g.destroyOne).1.members = m + 1 := congrArg Nat.pred hm
      rw [ih (g.destroyOne).1 h1 hp (Nat.succ_le_succ (Nat.zero_le m))]
      show (if g.members = 1 ∧ g.ptr ≠ 0 then 1 else 0) + 1 = 1
      have hm1 : ¬ g.members = 1 := fun h =>
        Nat.succ_ne_zero m (Nat.succ.inj (hm.symm.trans h))
      rw [if_neg (fun h => hm1 h.1), Nat.zero_add]

/- ======================= claim theorems ======================= -/

/-- C1: the claim fails on the code. Media::eventManager caches correctly
(second call returns exactly the stored instance), but the guard of
MediaDiscoverer::eventManager is inverted, so the first call on a fresh
MediaDiscoverer skips construction and dereferences the null cache (undefined
behavior, modeled as none) instead of constructing and storing the child. -/
theorem eventManagerCache_discoverer_bug :
    (∀ (accessor : NativePtr → NativePtr) (id1 id2 : Nat) (s : CacheState),
       (mediaEventManager accessor id2 (mediaEventManager accessor id1 s).2).1
         = (mediaEventManager accessor id1 s).1) ∧
    mediaDiscovererEventManager (fun p => p + 100) 1 (CacheState.mk 7 none)
      = none := by
  constructor
  · intro accessor id1 id2 s
    cases s with
    | mk p cache =>
      cases cache with
      | none => rfl
      | some em => rfl
  · rfl

/-- C2: a copy of a handle has the same validity as the original and makes no
native call, and across the whole ownership group the release function runs
exactly once when the handle is valid and never when it is empty, for any
number of members destroyed one after the other. -/
theorem sharedOwnership_release_once (g : OwnershipGroup) :
    ((g.copy).1.isValid = g.isValid ∧ (g.copy).2 = 0) ∧
    (g.isValid = true → 1 ≤ g.members → destroyReleases g g.members = 1) ∧
    (g.isValid = false → destroyReleases g g.members = 0) := by
  refine ⟨⟨rfl, rfl⟩, ?_, ?_⟩
  · intro hv hm
    have hp : g.ptr ≠ 0 := by simpa [OwnershipGroup.isValid] using hv
    exact destroyReleases_one g.members g rfl hp hm
  · intro hv
    have hp : g.ptr = 0 := by simpa [OwnershipGroup.isValid] using hv
    exact destroyReleases_zero g.members g hp

/-- Witness for C2 at a concrete group: pointer 5 shared by 3 members. -/
theorem sharedOwnership_release_once_witness :
    (OwnershipGroup.mk 5 3).isValid = true ∧
    1 ≤ (OwnershipGroup.mk 5 3).members ∧
    destroyReleases (OwnershipGroup.mk 5 3) 3 = 1 :=
  ⟨by decide, by decide,
   (sharedOwnership_release_once (OwnershipGroup.mk 5 3)).2.1 (by decide) (by decide)⟩

/-- C3: in the Media(Instance, mrl, FromType) constructor, whichever creation
path is selected, a null return from the native create call raises the
construction failure (Except.error), so no handle is produced. -/
theorem mediaNew_null_raises
    (newLocation newPath newAsNode : String → NativePtr) (m : String) :
    (newLocation m = 0 →
      mediaNew newLocation newPath newAsNode m FromType.FromLocation
        = Except.error mediaNewErrorText) ∧
    (newPath m = 0 →
      mediaNew newLocation newPath newAsNode m FromType.FromPath
        = Except.error mediaNewErrorText) ∧
    (newAsNode m = 0 →
      mediaNew newLocation newPath newAsNode m FromType.AsNode
        = Except.error mediaNewErrorText) := by
  refine ⟨?_, ?_, ?_⟩ <;> intro h <;> simp [mediaNew, h]

/-- Witness for C3: all three native create functions fail on a concrete mrl. -/
theorem mediaNew_null_raises_witness :
    mediaNew (fun _ => 0) (fun _ => 0) (fun _ => 0) mediaNewErrorText
        FromType.FromPath
      = Except.error mediaNewErrorText :=
  (mediaNew_null_raises (fun _ => 0) (fun _ => 0) (fun _ => 0)
    mediaNewErrorText).2.1 rfl

/-- C4: on the tolerated-empty construction paths, Media(Instance, fd) and
Instance(argc, argv), a null return from the native create call produces an
empty handle with isValid() false; the total return type of both constructors
shows that no failure is raised. -/
theorem nullTolerated_empty_handle
    (new_fd : Int → NativePtr) (fd : Int)
    (libvlc_new : Int → List String → NativePtr)
    (argc : Int) (argv : List String) :
    (new_fd fd = 0 → (mediaNewFd new_fd fd).isValid = false) ∧
    (libvlc_new argc argv = 0 →
      (instanceNew libvlc_new argc argv).isValid = false) := by
  constructor <;> intro h <;> simp [mediaNewFd, instanceNew, Internal.isValid, h]

/-- Witness for C4: concrete failing native create calls. -/
theorem nullTolerated_empty_handle_witness :
    (mediaNewFd (fun _ => 0) 3).isValid = false ∧
    (instanceNew (fun _ _ => 0) 0 []).isValid = false :=
  ⟨(nullTolerated_empty_handle (fun _ => 0) 3 (fun _ _ => 0) 0 []).1 rfl,
   (nullTolerated_empty_handle (fun _ => 0) 3 (fun _ _ => 0) 0 []).2 rfl⟩

/-- C5: handle equality is identity equality on the stored native pointer, for
Media and for Instance; two handles built from the same native pointer through
different construction paths compare equal, and two handles holding distinct
native pointers compare unequal. -/
theorem equality_pointer_identity :
    (∀ a b : Internal, mediaBeq a b = true ↔ a.ptr = b.ptr) ∧
    (∀ a b : Internal, instanceBeq a b = true ↔ a.ptr = b.ptr) ∧
    (∀ (p : NativePtr) (new_fd : Int → NativePtr) (fd : Int),
      new_fd fd = p →
        mediaBeq (mediaFromPtr p false).1 (mediaNewFd new_fd fd) = true) ∧
    (∀ p q : NativePtr, p ≠ q →
      mediaBeq (mediaFromPtr p false).1 (mediaFromPtr q false).1 = false) := by
  refine ⟨?_, ?_, ?_, ?_⟩
  · intro a b; simp [mediaBeq]
  · intro a b; simp [instanceBeq]
  · intro p new_fd fd h; simp [mediaBeq, mediaFromPtr, mediaNewFd, h]
  · intro p q h; simp [mediaBeq, mediaFromPtr, h]

/-- Witness for C5: pointer 4 reached through the adopt path and through the
fd path compares equal; pointers 4 and 9 compare unequal. -/
theorem equality_pointer_identity_witness :
    mediaBeq (mediaFromPtr 4 false).1 (mediaNewFd (fun _ => 4) 0) = true ∧
    mediaBeq (mediaFromPtr 4 false).1 (mediaFromPtr 9 false).1 = false :=
  ⟨equality_pointer_identity.2.2.1 4 (fun _ => 4) 0 rfl,
   equality_pointer_identity.2.2.2 4 9 (by decide)⟩

/-- C6: both marshalers wrap every element of the native container exactly
once, in container order, into an owned sequence; the container itself is
released exactly once when present and the release is skipped for a null list
or a zero count; a null or zero-element container yields the empty sequence,
and the total return types show that no error and no null result occur. -/
theorem marshal_walks_wraps_releases :
    (∀ (α β : Type) (wrap : α → β) (result : List α),
      (audioOutputList wrap result).1 = result.map wrap ∧
      (audioOutputList wrap result).2 = (if result.isEmpty then 0 else 1)) ∧
    (∀ (α β : Type) (wrap : α → β) (arr : Nat → α) (nbTracks : Nat),
      (mediaTracks wrap arr nbTracks).1 = ((List.range nbTracks).map arr).map wrap ∧
      (mediaTracks wrap arr nbTracks).2 = (if nbTracks = 0 then 0 else 1)) := by
  constructor
  · intro α β wrap result
    cases result with
    | nil => exact ⟨rfl, rfl⟩
    | cons x xs => exact ⟨walkChain_eq wrap (x :: xs) [], rfl⟩
  · intro α β wrap arr nbTracks
    by_cases h : nbTracks = 0
    · simp [mediaTracks, h]
    · refine ⟨?_, by simp [mediaTracks, h]⟩
      simp [mediaTracks, h, tracksLoop_eq, List.map_map, Function.comp]

/-- C7: the AdoptIncrement constructor Media(ptr, true) on a non-null pointer
makes exactly one native retain call while storing it, and wrapping the same
container-extracted pointer twice is balanced: the two retains equal the two
releases made when both single-member wrapper groups are destroyed, so the
native reference count returns to its prior value c and no double release of
the container reference occurs. -/
theorem adoptIncrement_balances (p : NativePtr) (c : Nat) (hp : p ≠ 0) :
    (mediaFromPtr p true).2 = 1 ∧
    destroyReleases (OwnershipGroup.mk p 1) 1 = 1 ∧
    c + ((mediaFromPtr p true).2 + (mediaFromPtr p true).2)
      - (destroyReleases (OwnershipGroup.mk p 1) 1
         + destroyReleases (OwnershipGroup.mk p 1) 1) = c := by
  have h1 : (mediaFromPtr p true).2 = 1 := by
    simp [mediaFromPtr, mediaRetainCalls, Internal.isValid, hp]
  have h2 : destroyReleases (OwnershipGroup.mk p 1) 1 = 1 :=
    destroyReleases_one 1 (OwnershipGroup.mk p 1) rfl hp (Nat.le_refl 1)
  refine ⟨h1, h2, ?_⟩
  rw [h1, h2]
  exact Nat.add_sub_cancel c (1 + 1)

/-- Witness for C7 at pointer 6 and prior reference count 2. -/
theorem adoptIncrement_balances_witness :
    (mediaFromPtr 6 true).2 = 1 ∧
    destroyReleases (OwnershipGroup.mk 6 1) 1 = 1 ∧
    2 + ((mediaFromPtr 6 true).2 + (mediaFromPtr 6 true).2)
      - (destroyReleases (OwnershipGroup.mk 6 1) 1
         + destroyReleases (OwnershipGroup.mk 6 1) 1) = 2 :=
  adoptIncrement_balances 6 2 (by decide)

/-- C9: each string-returning accessor maps a null native C string to the
empty string and a non-null one to its text; the String return type shows that
no null and no error result is possible. -/
theorem stringAccessors_null_gives_empty :
    (mediaMrl none = "" ∧ mediaMeta none = ""
      ∧ discovererLocalizedName none = "") ∧
    (∀ s : String, mediaMrl (some s) = s ∧ mediaMeta (some s) = s
      ∧ discovererLocalizedName (some s) = s) :=
  ⟨⟨rfl, rfl, rfl⟩, fun _ => ⟨rfl, rfl, rfl⟩⟩

/-- C10: duplicate() makes no retain call (it adopts), stores exactly the
pointer the native duplicate call returned, and when that pointer is null the
result is an empty handle with isValid() false; the total return type shows
that a wrapper is always produced. -/
theorem mediaDuplicate_total_adopts
    (native_duplicate : NativePtr → NativePtr) (m : Internal) :
    (mediaDuplicate native_duplicate m).2 = 0 ∧
    ((mediaDuplicate native_duplicate m).1).ptr = native_duplicate m.ptr ∧
    (native_duplicate m.ptr = 0 →
      ((mediaDuplicate native_duplicate m).1).isValid = false) := by
  refine ⟨rfl, rfl, ?_⟩
  intro h
  simp [mediaDuplicate, mediaFromPtr, Internal.isValid, h]

/-- Witness for C10: a native duplicate call that returns null. -/
theorem mediaDuplicate_total_adopts_witness :
    (mediaDuplicate (fun _ => 0) (Internal.mk 3)).2 = 0 ∧
    ((mediaDuplicate (fun _ => 0) (Internal.mk 3)).1).isValid = false :=
  ⟨(mediaDuplicate_total_adopts (fun _ => 0) (Internal.mk 3)).1,
   (mediaDuplicate_total_adopts (fun _ => 0) (Internal.mk 3)).2.2 rfl⟩
